import Mathlib

/-!
Verification of the plan-controller service (trial/billing notification
scheduler) against its specification.

The embedding models timestamps as integers counting milliseconds since the
epoch on a fixed-offset clock (no daylight-saving shifts), so that the
JavaScript operation d.setHours(0,0,0,0) is flooring to a multiple of
86400000 ms, and Date arithmetic with setDate adds exact multiples of a day.
JavaScript Math.round(x) is floor(x + 1/2), modelled over the rationals.
Integer division below is Euclidean division, which agrees with floor
division because msPerDay is positive.
-/

namespace PlanController

/-- Milliseconds in one day: 1000 * 60 * 60 * 24, as in getDaysBetween. -/
def msPerDay : Int := 1000 * 60 * 60 * 24

/-- Model of d.setHours(0,0,0,0): floor the timestamp to the start of its
day, i.e. to the greatest multiple of msPerDay not exceeding it. -/
def truncateToDay (t : Int) : Int := (t / msPerDay) * msPerDay

/-- JavaScript Math.round as a function of the exact quotient: rounds half
away from negative infinity. -/
def jsRound (q : ℚ) : Int := ⌊q + 1/2⌋

/-- Math.round(n / d) computed in integer arithmetic: for d positive,
floor(n/d + 1/2) = floor((2n + d) / (2d)). -/
def jsRoundDiv (n d : Int) : Int := (2 * n + d) / (2 * d)

/-- Model of getDaysBetween(date1, date2) from src/src/services/scheduler.js:
truncate both dates to start of day, take the millisecond difference d2 - d1
and round its quotient by one day to an integer. -/
def getDaysBetween (date1 date2 : Int) : Int :=
  jsRoundDiv (truncateToDay date2 - truncateToDay date1) msPerDay

theorem msPerDay_pos : (0 : Int) < msPerDay := by decide

/-- jsRoundDiv is Math.round of the exact rational quotient. -/
theorem jsRoundDiv_eq_jsRound (n d : Int) (hd : 0 < d) :
    jsRoundDiv n d = jsRound ((n : ℚ) / (d : ℚ)) := by
  unfold jsRoundDiv jsRound
  have hd2 : ((2 * d).toNat : ℤ) = 2 * d := Int.toNat_of_nonneg (by omega)
  have hq : (n : ℚ) / (d : ℚ) + 1/2 = ((2 * n + d : ℤ) : ℚ) / (((2 * d).toNat : ℕ) : ℚ) := by
    have hdq : ((d : ℤ) : ℚ) ≠ 0 := by
      exact_mod_cast (Int.cast_ne_zero (α := ℚ)).mpr (by omega)
    have : (((2 * d).toNat : ℕ) : ℚ) = ((2 * d : ℤ) : ℚ) := by
      rw [← Int.cast_natCast (R := ℚ), hd2]
    rw [this]
    push_cast
    field_simp
    ring
  rw [hq, Rat.floor_intCast_div_natCast, hd2]

/-- The truncated difference is an exact multiple of a day, so the rounding
in getDaysBetween is exact: it returns the difference of day indices. -/
theorem getDaysBetween_eq (a b : Int) :
    getDaysBetween a b = b / msPerDay - a / msPerDay := by
  unfold getDaysBetween jsRoundDiv truncateToDay
  have h : 2 * (b / msPerDay * msPerDay - a / msPerDay * msPerDay) + msPerDay
      = msPerDay * (2 * (b / msPerDay - a / msPerDay) + 1) := by ring
  rw [h, show (2 : Int) * msPerDay = msPerDay * 2 by ring,
    Int.mul_ediv_mul_of_pos _ _ msPerDay_pos]
  omega

theorem truncateToDay_div (t : Int) : truncateToDay t / msPerDay = t / msPerDay := by
  unfold truncateToDay
  exact Int.mul_ediv_cancel _ (by decide)

theorem truncateToDay_idem (t : Int) : truncateToDay (truncateToDay t) = truncateToDay t := by
  unfold truncateToDay
  rw [Int.mul_ediv_cancel _ (show msPerDay ≠ 0 by decide)]

/-- Adding k whole days to a day-truncated timestamp shifts its day index
by exactly k. -/
theorem div_truncate_add_days (t k : Int) :
    (truncateToDay t + k * msPerDay) / msPerDay = t / msPerDay + k := by
  unfold truncateToDay
  rw [Int.add_mul_ediv_right _ _ (show msPerDay ≠ 0 by decide),
    Int.mul_ediv_cancel _ (show msPerDay ≠ 0 by decide)]

/-! ## Data model

A DBRow is one row of the plan_states table exactly as declared by the
CREATE TABLE statement in src/server.js: among the billing warning flags
only billing_date_notified_3d has a column. -/

structure DBRow where
  website_id : String
  plan_id : String
  free_trial_start_date : Option Int
  next_billing_date : Option Int
  created_at : Int
  updated_at : Int
  free_trial_end_notified_5d : Bool
  free_trial_end_notified_3d : Bool
  free_trial_end_notified_1d : Bool
  free_trial_ended_action_taken : Bool
  billing_date_notified_3d : Bool
  last_scheduler_run : Option Int
deriving DecidableEq

/-- The plan-state object as checkAndTriggerEvents reads it.  The scheduler
also reads state.billing_date_notified_5d and state.billing_date_notified_1d,
properties a row from SELECT * does not have; reading an absent property in
JavaScript yields undefined, which is falsy. -/
structure PlanState where
  website_id : String
  plan_id : String
  free_trial_start_date : Option Int
  next_billing_date : Option Int
  free_trial_end_notified_5d : Bool
  free_trial_end_notified_3d : Bool
  free_trial_end_notified_1d : Bool
  free_trial_ended_action_taken : Bool
  billing_date_notified_5d : Bool
  billing_date_notified_3d : Bool
  billing_date_notified_1d : Bool
deriving DecidableEq

/-- View of a stored row as the object the scheduler iterates over: the two
billing flags without a column read as undefined, i.e. false. -/
def rowToState (r : DBRow) : PlanState :=
  { website_id := r.website_id
    plan_id := r.plan_id
    free_trial_start_date := r.free_trial_start_date
    next_billing_date := r.next_billing_date
    free_trial_end_notified_5d := r.free_trial_end_notified_5d
    free_trial_end_notified_3d := r.free_trial_end_notified_3d
    free_trial_end_notified_1d := r.free_trial_end_notified_1d
    free_trial_ended_action_taken := r.free_trial_ended_action_taken
    billing_date_notified_5d := false
    billing_date_notified_3d := r.billing_date_notified_3d
    billing_date_notified_1d := false }

/-- The updatedFlags object accumulated during one plan's processing.  A
field being true models the corresponding key being present in the object
(the scheduler only ever stores the value true into it). -/
structure UpdatedFlags where
  free_trial_end_notified_5d : Bool := false
  free_trial_end_notified_3d : Bool := false
  free_trial_end_notified_1d : Bool := false
  free_trial_ended_action_taken : Bool := false
  billing_date_notified_5d : Bool := false
  billing_date_notified_3d : Bool := false
  billing_date_notified_1d : Bool := false
deriving DecidableEq

inductive EventType where
  | free_trial_end
  | billing
deriving DecidableEq

/-- Outbound calls attempted by the scheduler for one plan: a warning POST
to payment-warning, or the downgrade PUT to free-trial-ended. -/
inductive Event where
  | warning (websiteId : String) (type : EventType) (daysUntilEvent : Int)
  | trialEndedAction (websiteId : String)
deriving DecidableEq

/-! ## Per-plan evaluation

processPlan is the body of the for-loop of checkAndTriggerEvents for one
plan state: it returns the outbound calls attempted and the updatedFlags
object.  warnOk tells whether the axios.post inside sendWarningNotification
succeeds; sendWarningNotification catches every error and returns normally,
so nothing the caller computes depends on warnOk.  actionOk tells whether
the downgrade axios.put succeeds; the flag assignment for it sits after the
await inside the try block, so it only happens on success. -/

def trialDaysRemaining (now dur d : Int) : Int :=
  getDaysBetween now (truncateToDay d + (dur - 1) * msPerDay)

def processPlan (now dur : Int) (warnOk actionOk : Bool) (s : PlanState) :
    List Event × UpdatedFlags :=
  let (trialEvents, f5, f3, f1, fEnd) :=
    match s.free_trial_start_date with
    | none => ([], false, false, false, false)
    | some d0 =>
      let daysRemaining := trialDaysRemaining now dur d0
      let w5 := (daysRemaining == 5) && !s.free_trial_end_notified_5d
      let w3 := (daysRemaining == 3) && !s.free_trial_end_notified_3d
      let w1 := (daysRemaining == 1) && !s.free_trial_end_notified_1d
      -- the two if/else-if action branches of the source attempt the same
      -- PUT, one for daysRemaining < 0 and one for daysRemaining === 0
      let act := (decide (daysRemaining < 0) || (daysRemaining == 0)) &&
        !s.free_trial_ended_action_taken
      ((if w5 then [Event.warning s.website_id .free_trial_end 5] else []) ++
       (if w3 then [Event.warning s.website_id .free_trial_end 3] else []) ++
       (if w1 then [Event.warning s.website_id .free_trial_end 1] else []) ++
       (if act then [Event.trialEndedAction s.website_id] else []),
       w5, w3, w1, act && actionOk)
  let (billingEvents, g5, g3, g1) :=
    match s.next_billing_date with
    | none => ([], false, false, false)
    | some b0 =>
      let daysUntilBilling := getDaysBetween now (truncateToDay b0)
      let b5 := (daysUntilBilling == 5) && !s.billing_date_notified_5d
      let b3 := (daysUntilBilling == 3) && !s.billing_date_notified_3d
      let b1 := (daysUntilBilling == 1) && !s.billing_date_notified_1d
      ((if b5 then [Event.warning s.website_id .billing 5] else []) ++
       (if b3 then [Event.warning s.website_id .billing 3] else []) ++
       (if b1 then [Event.warning s.website_id .billing 1] else []),
       b5, b3, b1)
  (trialEvents ++ billingEvents,
   { free_trial_end_notified_5d := f5
     free_trial_end_notified_3d := f3
     free_trial_end_notified_1d := f1
     free_trial_ended_action_taken := fEnd
     billing_date_notified_5d := g5
     billing_date_notified_3d := g3
     billing_date_notified_1d := g1 })

/-! ## Plan state store (src/services/planState.service.js)

The database is a list of rows; UPDATE ... WHERE website_id touches every
row whose key matches.  A single failed SQL statement mutates nothing. -/

/-- Does the updatedFlags object hold any key, i.e. is
Object.keys(updatedFlags).length > 0. -/
def hasAnyFlag (f : UpdatedFlags) : Bool :=
  f.free_trial_end_notified_5d || f.free_trial_end_notified_3d ||
  f.free_trial_end_notified_1d || f.free_trial_ended_action_taken ||
  f.billing_date_notified_5d || f.billing_date_notified_3d ||
  f.billing_date_notified_1d

/-- The SET clause of updatePlanStateNotificationFlags only names columns
that exist when the flags object has no billing_date_notified_5d and no
billing_date_notified_1d key; those two columns are absent from the
plan_states schema, so naming them is a SQL error. -/
def flagColumnsExist (f : UpdatedFlags) : Bool :=
  !f.billing_date_notified_5d && !f.billing_date_notified_1d

/-- Apply a flags object (every present key carries the value true) to one
row; updated_at is set to the statement time. -/
def applyFlags (ts : Int) (r : DBRow) (f : UpdatedFlags) : DBRow :=
  { r with
    free_trial_end_notified_5d :=
      r.free_trial_end_notified_5d || f.free_trial_end_notified_5d
    free_trial_end_notified_3d :=
      r.free_trial_end_notified_3d || f.free_trial_end_notified_3d
    free_trial_end_notified_1d :=
      r.free_trial_end_notified_1d || f.free_trial_end_notified_1d
    free_trial_ended_action_taken :=
      r.free_trial_ended_action_taken || f.free_trial_ended_action_taken
    billing_date_notified_3d :=
      r.billing_date_notified_3d || f.billing_date_notified_3d
    updated_at := ts }

/-- Model of updatePlanStateNotificationFlags: build UPDATE plan_states SET
(one clause per key of flags) WHERE website_id = wid.  A reference to a
column missing from the schema makes the statement fail; the catch block
rethrows Error('Failed to update notification flags.').  A row count of
zero only logs a warning and returns false. -/
def updatePlanStateNotificationFlags (ts : Int) (db : List DBRow)
    (wid : String) (f : UpdatedFlags) : Except String (List DBRow) :=
  if flagColumnsExist f then
    .ok (db.map fun r => if r.website_id == wid then applyFlags ts r f else r)
  else
    .error "Failed to update notification flags."

/-- Model of upsertPlanState: INSERT ... ON CONFLICT (website_id) DO UPDATE.
Every notification flag is written FALSE on both paths; last_scheduler_run
is reset to NULL on conflict and takes its NULL column default on insert. -/
def upsertPlanState (db : List DBRow) (wid pid : String)
    (freeTrialStartDate nextBillingDate : Option Int) (ts : Int) : List DBRow :=
  if db.any (fun r => r.website_id == wid) then
    db.map fun r =>
      if r.website_id == wid then
        { r with
          plan_id := pid
          free_trial_start_date := freeTrialStartDate
          next_billing_date := nextBillingDate
          updated_at := ts
          free_trial_end_notified_5d := false
          free_trial_end_notified_3d := false
          free_trial_end_notified_1d := false
          free_trial_ended_action_taken := false
          billing_date_notified_3d := false
          last_scheduler_run := none }
      else r
  else
    db ++ [{ website_id := wid
             plan_id := pid
             free_trial_start_date := freeTrialStartDate
             next_billing_date := nextBillingDate
             created_at := ts
             updated_at := ts
             free_trial_end_notified_5d := false
             free_trial_end_notified_3d := false
             free_trial_end_notified_1d := false
             free_trial_ended_action_taken := false
             billing_date_notified_3d := false
             last_scheduler_run := none }]

/-- Model of updateNextBillingDate: UPDATE next_billing_date, updated_at and
billing_date_notified_3d WHERE website_id; returns whether any row matched
(rowCount > 0). -/
def updateNextBillingDate (db : List DBRow) (wid : String) (nb ts : Int) :
    List DBRow × Bool :=
  if db.any (fun r => r.website_id == wid) then
    (db.map fun r =>
      if r.website_id == wid then
        { r with next_billing_date := some nb, updated_at := ts,
                 billing_date_notified_3d := false }
      else r, true)
  else (db, false)

/-- Model of updateBillingDateController: 400 when the body has no
nextBillingDate, otherwise the service call decides between 200 and 404.
The result is the HTTP status paired with the database afterwards. -/
def updateBillingDateController (db : List DBRow) (wid : String)
    (body : Option Int) (ts : Int) : Nat × List DBRow :=
  match body with
  | none => (400, db)
  | some nb =>
    let res := updateNextBillingDate db wid nb ts
    if res.2 then (200, res.1) else (404, res.1)

/-! ## The scheduler pass (checkAndTriggerEvents) -/

/-- One pass over the snapshot returned by getAllPlanStates.  For each row
the loop body runs processPlan and, when the updatedFlags object is
non-empty, issues the store update.  The loop has no try/catch, so a store
error rejects the whole pass: the triple returned is the calls attempted so
far, the database as mutated so far, and the error if one was thrown. -/
def runPassAux (now ts dur : Int) (warnOk actionOk : Bool) :
    List DBRow → List DBRow → List Event × List DBRow × Option String
  | db, [] => ([], db, none)
  | db, r :: rest =>
    let (evs, f) := processPlan now dur warnOk actionOk (rowToState r)
    if hasAnyFlag f then
      match updatePlanStateNotificationFlags ts db r.website_id f with
      | .ok db' =>
        let (evs', db'', err) := runPassAux now ts dur warnOk actionOk db' rest
        (evs ++ evs', db'', err)
      | .error e => (evs, db, some e)
    else
      let (evs', db'', err) := runPassAux now ts dur warnOk actionOk db rest
      (evs ++ evs', db'', err)

/-- Model of checkAndTriggerEvents: normalize now to start of day, snapshot
all plan states, and process them in order.  dur is the trial duration after
the fetch-or-fallback-to-14 step; warnOk and actionOk are the outcomes of
the outbound calls during this pass (assumed uniform across the pass). -/
def checkAndTriggerEvents (nowRaw dur : Int) (warnOk actionOk : Bool)
    (db : List DBRow) : List Event × List DBRow × Option String :=
  runPassAux (truncateToDay nowRaw) nowRaw dur warnOk actionOk db db

/-! ## API-key middleware (src/middleware/auth.js) -/

/-- JavaScript truthiness of an optional string: undefined and the empty
string are falsy. -/
def jsTruthyStr : Option String → Bool
  | none => false
  | some s => !(s == "")

/-- Model of authMiddleware.  apiKey is process.env.PLAN_CONTROLLER_API_KEY,
header the request's x-api-key value.  The result some 401 means the
middleware replies with status 401 and never calls next(), so the route
handler does not execute; none means next() runs the handler. -/
def authMiddleware (apiKey header : Option String) : Option Nat :=
  if !(jsTruthyStr apiKey) then
    none
  else if !(jsTruthyStr header) || header != apiKey then
    some 401
  else
    none

/-! ## Concrete instances used by witnesses and counterexamples -/

/-- A plan state whose trial started at the epoch, all flags clear. -/
def stTrial0 : PlanState :=
  ⟨"w", "p", some 0, none, false, false, false, false, false, false, false⟩

/-- A stored row whose trial started at the epoch, all flags clear. -/
def rowTrial0 : DBRow :=
  ⟨"w", "p", some 0, none, 0, 0, false, false, false, false, false, none⟩

/-- A stored row tracking only a billing date, all flags clear. -/
def rowBilling (wid : String) (nb : Int) : DBRow :=
  ⟨wid, "p", none, some nb, 0, 0, false, false, false, false, false, none⟩

/-! ## Helper lemmas -/

theorem mem_ite_list {p : Prop} [Decidable p] (x y : Event) :
    (x ∈ if p then [y] else []) ↔ p ∧ x = y := by
  split <;> rename_i h <;> simp [h]

theorem getDaysBetween_trunc_trunc (a b : Int) :
    getDaysBetween (truncateToDay a) (truncateToDay b) = getDaysBetween a b := by
  rw [getDaysBetween_eq, getDaysBetween_eq, truncateToDay_div, truncateToDay_div]

theorem getDaysBetween_trunc_right (a b : Int) :
    getDaysBetween a (truncateToDay b) = getDaysBetween a b := by
  rw [getDaysBetween_eq, getDaysBetween_eq, truncateToDay_div]

theorem count_ite_list {p : Prop} [Decidable p] (x y : Event) :
    (if p then [y] else []).count x = if p ∧ y = x then 1 else 0 := by
  split <;> rename_i h <;> by_cases hxy : y = x <;>
    simp [h, hxy, List.count_cons]

/-- C8: getDaysBetween is antisymmetric, and positive exactly when the
day-truncated second date is after the day-truncated first date. -/
theorem getDaysBetween_antisymm_pos (a b : Int) :
    getDaysBetween a b = -getDaysBetween b a ∧
    (0 < getDaysBetween a b ↔ truncateToDay a < truncateToDay b) := by
  constructor
  · rw [getDaysBetween_eq, getDaysBetween_eq]
    ring
  · rw [getDaysBetween_eq, sub_pos]
    unfold truncateToDay
    exact (mul_lt_mul_right msPerDay_pos).symm

/-- C9: when the static API key is configured, a request whose x-api-key
header is missing or differs from it gets a 401 response and the route
handler is never invoked (the middleware does not call next). -/
theorem auth_rejects_bad_key (k : String) (header : Option String)
    (hk : k ≠ "") (hh : header ≠ some k) :
    authMiddleware (some k) header = some 401 := by
  unfold authMiddleware jsTruthyStr
  cases header with
  | none => simp [hk]
  | some s =>
    have hs : s ≠ k := fun h => hh (by rw [h])
    by_cases hse : s = ""
    · simp [hk, hse]
    · simp [hk, hse, hs]

/-- Witness for C9 at a concrete key and header. -/
theorem auth_rejects_bad_key_witness :
    authMiddleware (some "secret") (some "wrong") = some 401 :=
  auth_rejects_bad_key "secret" (some "wrong") (by decide) (by decide)

/-- C1: with a non-null freeTrialStartDate and positive duration dur, the
evaluator computes trialEndDate as the day-truncated start plus dur - 1
days, daysRemaining as getDaysBetween(now, trialEndDate), and attempts the
5-day (resp. 3-day, 1-day) trial warning exactly when daysRemaining equals
5 (resp. 3, 1) and the matching notified flag is unset. -/
theorem trial_warnings_fire_iff (now dur : Int) (warnOk actionOk : Bool)
    (s : PlanState) (d : Int) (hd : s.free_trial_start_date = some d)
    (hdur : 0 < dur) :
    ((Event.warning s.website_id .free_trial_end 5 ∈
        (processPlan now dur warnOk actionOk s).1) ↔
      (getDaysBetween now (truncateToDay d + (dur - 1) * msPerDay) = 5 ∧
        s.free_trial_end_notified_5d = false)) ∧
    ((Event.warning s.website_id .free_trial_end 3 ∈
        (processPlan now dur warnOk actionOk s).1) ↔
      (getDaysBetween now (truncateToDay d + (dur - 1) * msPerDay) = 3 ∧
        s.free_trial_end_notified_3d = false)) ∧
    ((Event.warning s.website_id .free_trial_end 1 ∈
        (processPlan now dur warnOk actionOk s).1) ↔
      (getDaysBetween now (truncateToDay d + (dur - 1) * msPerDay) = 1 ∧
        s.free_trial_end_notified_1d = false)) := by
  cases hb : s.next_billing_date with
  | none =>
    refine ⟨?_, ?_, ?_⟩ <;>
      simp [processPlan, hd, hb, trialDaysRemaining, mem_ite_list,
        Bool.and_eq_true, beq_iff_eq, Bool.not_eq_true']
  | some b0 =>
    refine ⟨?_, ?_, ?_⟩ <;>
      simp [processPlan, hd, hb, trialDaysRemaining, mem_ite_list,
        Bool.and_eq_true, beq_iff_eq, Bool.not_eq_true']

/-- Witness for C1: a trial started at the epoch with a 14-day duration,
observed on day 8, is 5 days from its inclusive end day, so the 5-day
warning fires. -/
theorem trial_warnings_fire_iff_witness :
    Event.warning "w" .free_trial_end 5 ∈
      (processPlan (8 * msPerDay) 14 true true stTrial0).1 :=
  ((trial_warnings_fire_iff (8 * msPerDay) 14 true true stTrial0 0 rfl
    (by decide)).1).mpr ⟨by decide, rfl⟩

/-- C2: with a non-null freeTrialStartDate, the downgrade action is
attempted exactly when daysRemaining is not positive and the
trialEndedActionTaken flag is unset, and it is attempted exactly once per
pass no matter how negative daysRemaining is. -/
theorem trial_ended_action_iff_once (now dur : Int) (warnOk actionOk : Bool)
    (s : PlanState) (d : Int) (hd : s.free_trial_start_date = some d) :
    (processPlan now dur warnOk actionOk s).1.count
        (Event.trialEndedAction s.website_id) =
      if getDaysBetween now (truncateToDay d + (dur - 1) * msPerDay) ≤ 0 ∧
          s.free_trial_ended_action_taken = false then 1 else 0 := by
  cases hb : s.next_billing_date with
  | none =>
    cases he : s.free_trial_ended_action_taken <;>
      simp [processPlan, hd, hb, he, trialDaysRemaining, count_ite_list,
        List.count_append, Bool.and_eq_true, Bool.or_eq_true, beq_iff_eq,
        decide_eq_true_eq, Bool.not_eq_true'] <;>
      split_ifs <;> first | rfl | omega
  | some b0 =>
    cases he : s.free_trial_ended_action_taken <;>
      simp [processPlan, hd, hb, he, trialDaysRemaining, count_ite_list,
        List.count_append, Bool.and_eq_true, Bool.or_eq_true, beq_iff_eq,
        decide_eq_true_eq, Bool.not_eq_true'] <;>
      split_ifs <;> first | rfl | omega

/-- Witness for C2: a trial whose inclusive end day passed 10 days ago with
the action flag unset yields exactly one downgrade attempt. -/
theorem trial_ended_action_iff_once_witness :
    (processPlan (23 * msPerDay) 14 true true stTrial0).1.count
        (Event.trialEndedAction stTrial0.website_id) = 1 := by
  rw [trial_ended_action_iff_once (23 * msPerDay) 14 true true stTrial0 0 rfl]
  decide

/-- Counterexample to C3: in a pass where every outbound warning dispatch
fails (warnOk = false models the axios.post throwing), the 5-day trial
warning flag is nevertheless written back to the store, because
sendWarningNotification swallows the error and the caller records the flag
unconditionally. -/
theorem warning_flag_set_despite_failed_dispatch :
    (checkAndTriggerEvents (8 * msPerDay) 14 false true [rowTrial0]).1
      = [Event.warning "w" .free_trial_end 5] ∧
    (checkAndTriggerEvents (8 * msPerDay) 14 false true [rowTrial0]).2.1
      = [{ rowTrial0 with
            free_trial_end_notified_5d := true
            updated_at := 8 * msPerDay }] := by
  decide

/-- C3 amended: a warning flag is recorded for the pass exactly when the
corresponding warning dispatch was attempted, regardless of whether the
outbound call succeeded (the statement is uniform in warnOk). -/
theorem warning_flags_record_attempt (now dur : Int) (warnOk actionOk : Bool)
    (s : PlanState) :
    ((processPlan now dur warnOk actionOk s).2.free_trial_end_notified_5d = true ↔
      Event.warning s.website_id .free_trial_end 5 ∈
        (processPlan now dur warnOk actionOk s).1) ∧
    ((processPlan now dur warnOk actionOk s).2.free_trial_end_notified_3d = true ↔
      Event.warning s.website_id .free_trial_end 3 ∈
        (processPlan now dur warnOk actionOk s).1) ∧
    ((processPlan now dur warnOk actionOk s).2.free_trial_end_notified_1d = true ↔
      Event.warning s.website_id .free_trial_end 1 ∈
        (processPlan now dur warnOk actionOk s).1) ∧
    ((processPlan now dur warnOk actionOk s).2.billing_date_notified_5d = true ↔
      Event.warning s.website_id .billing 5 ∈
        (processPlan now dur warnOk actionOk s).1) ∧
    ((processPlan now dur warnOk actionOk s).2.billing_date_notified_3d = true ↔
      Event.warning s.website_id .billing 3 ∈
        (processPlan now dur warnOk actionOk s).1) ∧
    ((processPlan now dur warnOk actionOk s).2.billing_date_notified_1d = true ↔
      Event.warning s.website_id .billing 1 ∈
        (processPlan now dur warnOk actionOk s).1) := by
  cases hd : s.free_trial_start_date with
  | none =>
    cases hb : s.next_billing_date with
    | none =>
      refine ⟨?_, ?_, ?_, ?_, ?_, ?_⟩ <;>
        simp [processPlan, hd, hb, mem_ite_list, Bool.and_eq_true, beq_iff_eq]
    | some b0 =>
      refine ⟨?_, ?_, ?_, ?_, ?_, ?_⟩ <;>
        simp [processPlan, hd, hb, mem_ite_list, Bool.and_eq_true, beq_iff_eq]
  | some d0 =>
    cases hb : s.next_billing_date with
    | none =>
      refine ⟨?_, ?_, ?_, ?_, ?_, ?_⟩ <;>
        simp [processPlan, hd, hb, mem_ite_list, Bool.and_eq_true, beq_iff_eq]
    | some b0 =>
      refine ⟨?_, ?_, ?_, ?_, ?_, ?_⟩ <;>
        simp [processPlan, hd, hb, mem_ite_list, Bool.and_eq_true, beq_iff_eq]

/-- C10: the flag discipline is asymmetric.  When the trial has lapsed and
the action flag is unset, the free_trial_ended_action_taken flag is
recorded only if the downgrade PUT succeeds, while every warning flag the
evaluator records is independent of the warning dispatch outcome. -/
theorem action_flag_success_gated (now dur : Int) (warnOk : Bool)
    (s : PlanState) (d : Int) (hd : s.free_trial_start_date = some d)
    (hr : getDaysBetween now (truncateToDay d + (dur - 1) * msPerDay) ≤ 0)
    (hf : s.free_trial_ended_action_taken = false) :
    (processPlan now dur warnOk false s).2.free_trial_ended_action_taken = false ∧
    (processPlan now dur warnOk true s).2.free_trial_ended_action_taken = true ∧
    (∀ actionOk : Bool,
      (processPlan now dur false actionOk s).2.free_trial_end_notified_5d
        = (processPlan now dur true actionOk s).2.free_trial_end_notified_5d ∧
      (processPlan now dur false actionOk s).2.free_trial_end_notified_3d
        = (processPlan now dur true actionOk s).2.free_trial_end_notified_3d ∧
      (processPlan now dur false actionOk s).2.free_trial_end_notified_1d
        = (processPlan now dur true actionOk s).2.free_trial_end_notified_1d ∧
      (processPlan now dur false actionOk s).2.billing_date_notified_5d
        = (processPlan now dur true actionOk s).2.billing_date_notified_5d ∧
      (processPlan now dur false actionOk s).2.billing_date_notified_3d
        = (processPlan now dur true actionOk s).2.billing_date_notified_3d ∧
      (processPlan now dur false actionOk s).2.billing_date_notified_1d
        = (processPlan now dur true actionOk s).2.billing_date_notified_1d) := by
  have hlt : getDaysBetween now (truncateToDay d + (dur - 1) * msPerDay) < 0 ∨
      getDaysBetween now (truncateToDay d + (dur - 1) * msPerDay) = 0 := by omega
  refine ⟨?_, ?_, fun actionOk => ⟨rfl, rfl, rfl, rfl, rfl, rfl⟩⟩
  · cases hb : s.next_billing_date <;>
      simp [processPlan, hd, hb, trialDaysRemaining]
  · cases hb : s.next_billing_date <;>
      rcases hlt with h | h <;>
      simp [processPlan, hd, hb, hf, h, trialDaysRemaining]

/-- Witness for C10: one day past the inclusive trial end, a successful
downgrade PUT records the action flag. -/
theorem action_flag_success_gated_witness :
    (processPlan (14 * msPerDay) 14 true true stTrial0).2.free_trial_ended_action_taken
      = true :=
  (action_flag_success_gated (14 * msPerDay) 14 true stTrial0 0 rfl
    (by decide) rfl).2.1

theorem mem_of_getElem_opt {α : Type} {l : List α} {i : Nat} {a : α}
    (h : l[i]? = some a) : a ∈ l := by
  obtain ⟨hi, rfl⟩ := List.getElem?_eq_some.mp h
  exact List.getElem_mem hi

/-- C4: the upsert leaves the target row (created or updated) with every
notification flag false and last_scheduler_run cleared, whatever the prior
flag values were. -/
theorem upsert_resets_all_flags (db : List DBRow) (wid pid : String)
    (ft nb : Option Int) (ts : Int) :
    (∃ r ∈ upsertPlanState db wid pid ft nb ts, r.website_id = wid) ∧
    (∀ r ∈ upsertPlanState db wid pid ft nb ts, r.website_id = wid →
      r.free_trial_end_notified_5d = false ∧
      r.free_trial_end_notified_3d = false ∧
      r.free_trial_end_notified_1d = false ∧
      r.free_trial_ended_action_taken = false ∧
      r.billing_date_notified_3d = false ∧
      r.last_scheduler_run = none) := by
  unfold upsertPlanState
  by_cases h : db.any (fun r => r.website_id == wid) = true
  · simp only [h, if_true]
    constructor
    · obtain ⟨r0, hr0, hwid⟩ := List.any_eq_true.mp h
      refine ⟨_, List.mem_map_of_mem _ hr0, ?_⟩
      simp only [hwid, if_true]
      exact beq_iff_eq.mp hwid
    · intro r hr hwid2
      obtain ⟨r0, hr0, rfl⟩ := List.mem_map.mp hr
      by_cases hw : r0.website_id == wid
      · simp [hw]
      · simp only [hw, if_false] at hwid2 ⊢
        exact absurd (beq_iff_eq.mpr hwid2) (by simpa using hw)
  · simp only [h, if_false]
    constructor
    · refine ⟨⟨wid, pid, ft, nb, ts, ts, false, false, false, false, false,
        none⟩, ?_, rfl⟩
      simp
    · intro r hr hwid2
      rcases List.mem_append.mp hr with h1 | h1
      · have hc : db.any (fun r => r.website_id == wid) = true :=
          List.any_eq_true.mpr ⟨r, h1, beq_iff_eq.mpr hwid2⟩
        exact absurd hc h
      · simp only [List.mem_singleton] at h1
        subst h1
        exact ⟨rfl, rfl, rfl, rfl, rfl, rfl⟩

/-- Witness for C4: upserting over a row whose flags are all true leaves
the stored row with every flag false and last_scheduler_run cleared. -/
theorem upsert_resets_all_flags_witness :
    (⟨"w", "q", none, some (9 * msPerDay), 0, 1, false, false, false, false,
        false, none⟩ : DBRow).free_trial_end_notified_5d = false ∧
    (⟨"w", "q", none, some (9 * msPerDay), 0, 1, false, false, false, false,
        false, none⟩ : DBRow).free_trial_end_notified_3d = false ∧
    (⟨"w", "q", none, some (9 * msPerDay), 0, 1, false, false, false, false,
        false, none⟩ : DBRow).free_trial_end_notified_1d = false ∧
    (⟨"w", "q", none, some (9 * msPerDay), 0, 1, false, false, false, false,
        false, none⟩ : DBRow).free_trial_ended_action_taken = false ∧
    (⟨"w", "q", none, some (9 * msPerDay), 0, 1, false, false, false, false,
        false, none⟩ : DBRow).billing_date_notified_3d = false ∧
    (⟨"w", "q", none, some (9 * msPerDay), 0, 1, false, false, false, false,
        false, none⟩ : DBRow).last_scheduler_run = none :=
  (upsert_resets_all_flags
    [⟨"w", "p", some 0, some 0, 0, 0, true, true, true, true, true, some 3⟩]
    "w" "q" none (some (9 * msPerDay)) 1).2
    ⟨"w", "q", none, some (9 * msPerDay), 0, 1, false, false, false, false,
      false, none⟩ (by decide) rfl

/-- C7: updateNextBillingDate keeps every row's identity, plan, trial date
and trial flags; rows keyed differently are untouched entirely; the matched
row gets exactly the new billing date, a cleared billing_date_notified_3d
and a bumped updated_at; and on an unknown websiteId the controller replies
404 with the store unchanged. -/
theorem updateBillingDate_frame_and_404 (db : List DBRow) (wid : String)
    (nb ts : Int) :
    (∀ i : Nat, ∀ r0 : DBRow, db[i]? = some r0 →
      ∃ r1 : DBRow, (updateNextBillingDate db wid nb ts).1[i]? = some r1 ∧
        r1.website_id = r0.website_id ∧
        r1.plan_id = r0.plan_id ∧
        r1.free_trial_start_date = r0.free_trial_start_date ∧
        r1.created_at = r0.created_at ∧
        r1.free_trial_end_notified_5d = r0.free_trial_end_notified_5d ∧
        r1.free_trial_end_notified_3d = r0.free_trial_end_notified_3d ∧
        r1.free_trial_end_notified_1d = r0.free_trial_end_notified_1d ∧
        r1.free_trial_ended_action_taken = r0.free_trial_ended_action_taken ∧
        r1.last_scheduler_run = r0.last_scheduler_run ∧
        (r0.website_id ≠ wid → r1 = r0) ∧
        (r0.website_id = wid → r1.next_billing_date = some nb ∧
          r1.billing_date_notified_3d = false ∧ r1.updated_at = ts)) ∧
    ((∀ r ∈ db, r.website_id ≠ wid) →
      updateBillingDateController db wid (some nb) ts = (404, db)) := by
  constructor
  · intro i r0 h0
    unfold updateNextBillingDate
    by_cases h : db.any (fun r => r.website_id == wid) = true
    · simp only [h, if_true]
      refine ⟨_, by rw [List.getElem?_map, h0]; rfl, ?_⟩
      by_cases hw : r0.website_id == wid
      · have heq : r0.website_id = wid := beq_iff_eq.mp hw
        simp [hw, heq]
      · have hne : r0.website_id ≠ wid := by simpa using hw
        simp [hw, hne]
    · simp only [h, if_false]
      refine ⟨r0, h0, rfl, rfl, rfl, rfl, rfl, rfl, rfl, rfl, rfl,
        fun _ => rfl, ?_⟩
      intro heq
      have hc : db.any (fun r => r.website_id == wid) = true :=
        List.any_eq_true.mpr ⟨r0, mem_of_getElem_opt h0, beq_iff_eq.mpr heq⟩
      exact absurd hc h
  · intro hnone
    have h : db.any (fun r => r.website_id == wid) = false := by
      rw [List.any_eq_false]
      intro r hr
      simpa using hnone r hr
    unfold updateBillingDateController updateNextBillingDate
    simp [h]

/-- Witness for C7: a store holding one row keyed differently is untouched
and the controller replies 404. -/
theorem updateBillingDate_frame_and_404_witness :
    updateBillingDateController [rowBilling "other" 0] "w" (some 5) 1
      = (404, [rowBilling "other" 0]) :=
  (updateBillingDate_frame_and_404 [rowBilling "other" 0] "w" 5 1).2
    (by decide)

theorem getDaysBetween_trunc_left (a b : Int) :
    getDaysBetween (truncateToDay a) b = getDaysBetween a b := by
  rw [getDaysBetween_eq, getDaysBetween_eq, truncateToDay_div]

theorem processPlan_billing_flags (now dur : Int) (w a : Bool)
    (s : PlanState) (b : Int) (hb : s.next_billing_date = some b) :
    (processPlan now dur w a s).2.billing_date_notified_5d
      = ((getDaysBetween now (truncateToDay b) == 5) &&
          !s.billing_date_notified_5d) ∧
    (processPlan now dur w a s).2.billing_date_notified_3d
      = ((getDaysBetween now (truncateToDay b) == 3) &&
          !s.billing_date_notified_3d) ∧
    (processPlan now dur w a s).2.billing_date_notified_1d
      = ((getDaysBetween now (truncateToDay b) == 1) &&
          !s.billing_date_notified_1d) := by
  cases hd : s.free_trial_start_date <;> simp [processPlan, hd, hb]

theorem billing3_warning_mem (now dur : Int) (w a : Bool) (s : PlanState)
    (b : Int) (hb : s.next_billing_date = some b) :
    Event.warning s.website_id .billing 3 ∈ (processPlan now dur w a s).1 ↔
      (getDaysBetween now (truncateToDay b) = 3 ∧
        s.billing_date_notified_3d = false) := by
  cases hd : s.free_trial_start_date <;>
    simp [processPlan, hd, hb, mem_ite_list, Bool.and_eq_true, beq_iff_eq,
      Bool.not_eq_true']

theorem runPass_singleton_events (now ts dur : Int) (w a : Bool) (r : DBRow) :
    (runPassAux now ts dur w a [r] [r]).1
      = (processPlan now dur w a (rowToState r)).1 := by
  rcases hp : processPlan now dur w a (rowToState r) with ⟨evs, f⟩
  unfold runPassAux
  by_cases hf : hasAnyFlag f = true
  · cases hup : updatePlanStateNotificationFlags ts [r] r.website_id f <;>
      simp [hp, hf, hup, runPassAux]
  · simp [hp, hf, runPassAux]

theorem runPass_singleton_ok (now ts dur : Int) (w a : Bool) (r : DBRow)
    (hflags : hasAnyFlag (processPlan now dur w a (rowToState r)).2 = true)
    (hvalid : flagColumnsExist (processPlan now dur w a (rowToState r)).2
      = true) :
    runPassAux now ts dur w a [r] [r] =
      ((processPlan now dur w a (rowToState r)).1,
        [applyFlags ts r (processPlan now dur w a (rowToState r)).2], none) := by
  unfold runPassAux
  simp [hflags, updatePlanStateNotificationFlags, hvalid, runPassAux]

/-- Counterexample to C5: one billing-tracked row five days from its billing
date.  The 5-day billing warning fires, but its flag has no column in
plan_states, so the write-back fails and the store keeps the row unchanged;
a second pass at the same instant fires the same 5-day warning again, i.e.
this threshold fires more than once within one tracking period. -/
theorem billing5_refires_every_pass :
    (checkAndTriggerEvents 0 14 true true
        [rowBilling "b" (5 * msPerDay)]).1.count (Event.warning "b" .billing 5)
      = 1 ∧
    (checkAndTriggerEvents 0 14 true true [rowBilling "b" (5 * msPerDay)]).2.1
      = [rowBilling "b" (5 * msPerDay)] ∧
    (checkAndTriggerEvents 0 14 true true [rowBilling "b" (5 * msPerDay)]).2.2
      = some "Failed to update notification flags." ∧
    (checkAndTriggerEvents 0 14 true true
        ((checkAndTriggerEvents 0 14 true true
          [rowBilling "b" (5 * msPerDay)]).2.1)).1.count
        (Event.warning "b" .billing 5) = 1 := by
  decide

/-- C5 amended: the 3-day billing warning obeys the equality-and-flag-unset
rule and fires at most once per tracking period: after a pass in which it
fired, its flag is persisted and a pass over the resulting store does not
fire it again.  (For the 5-day and 1-day thresholds the flags read and
written have no column in the plan_states schema, so those warnings re-fire
on every pass of the qualifying day and the flag write fails.) -/
theorem billing3_fires_once_per_period (nowRaw dur : Int) (w a : Bool)
    (r : DBRow) (b : Int) (hb : r.next_billing_date = some b)
    (hdays : getDaysBetween nowRaw b = 3)
    (hf : r.billing_date_notified_3d = false) :
    Event.warning r.website_id .billing 3 ∈
      (checkAndTriggerEvents nowRaw dur w a [r]).1 ∧
    (checkAndTriggerEvents nowRaw dur w a [r]).2.2 = none ∧
    Event.warning r.website_id .billing 3 ∉
      (checkAndTriggerEvents nowRaw dur w a
        (checkAndTriggerEvents nowRaw dur w a [r]).2.1).1 := by
  have hsb : (rowToState r).next_billing_date = some b := hb
  have hbu : getDaysBetween (truncateToDay nowRaw) (truncateToDay b)
      = 3 := by
    rw [getDaysBetween_trunc_trunc]
    exact hdays
  have hflags :=
    processPlan_billing_flags (truncateToDay nowRaw) dur w a (rowToState r) b hsb
  have hb3 : (processPlan (truncateToDay nowRaw) dur w a
      (rowToState r)).2.billing_date_notified_3d = true := by
    rw [hflags.2.1, hbu]
    simp [rowToState, hf]
  have hb5 : (processPlan (truncateToDay nowRaw) dur w a
      (rowToState r)).2.billing_date_notified_5d = false := by
    rw [hflags.1, hbu]
    simp [rowToState]
  have hb1 : (processPlan (truncateToDay nowRaw) dur w a
      (rowToState r)).2.billing_date_notified_1d = false := by
    rw [hflags.2.2, hbu]
    simp [rowToState]
  have hany : hasAnyFlag (processPlan (truncateToDay nowRaw) dur w a
      (rowToState r)).2 = true := by
    simp [hasAnyFlag, hb3]
  have hvalid : flagColumnsExist (processPlan (truncateToDay nowRaw) dur w a
      (rowToState r)).2 = true := by
    simp [flagColumnsExist, hb5, hb1]
  have hpass := runPass_singleton_ok (truncateToDay nowRaw) nowRaw dur w a r
    hany hvalid
  refine ⟨?_, ?_, ?_⟩
  · show Event.warning r.website_id .billing 3 ∈
      (runPassAux (truncateToDay nowRaw) nowRaw dur w a [r] [r]).1
    rw [hpass]
    exact (billing3_warning_mem (truncateToDay nowRaw) dur w a (rowToState r)
      b hsb).mpr ⟨hbu, hf⟩
  · show (runPassAux (truncateToDay nowRaw) nowRaw dur w a [r] [r]).2.2 = none
    rw [hpass]
  · show Event.warning r.website_id .billing 3 ∉
      (checkAndTriggerEvents nowRaw dur w a
        (runPassAux (truncateToDay nowRaw) nowRaw dur w a [r] [r]).2.1).1
    rw [hpass]
    show Event.warning r.website_id .billing 3 ∉
      (runPassAux (truncateToDay nowRaw) nowRaw dur w a _ _).1
    rw [runPass_singleton_events]
    intro hmem
    have hsb' : (rowToState (applyFlags nowRaw r (processPlan
        (truncateToDay nowRaw) dur w a (rowToState r)).2)).next_billing_date
        = some b := hb
    have hthis := (billing3_warning_mem (truncateToDay nowRaw) dur w a _ b
      hsb').mp hmem
    have hflag3 : (rowToState (applyFlags nowRaw r (processPlan
        (truncateToDay nowRaw) dur w a (rowToState r)).2)).billing_date_notified_3d
        = (r.billing_date_notified_3d || (processPlan (truncateToDay nowRaw)
            dur w a (rowToState r)).2.billing_date_notified_3d) := rfl
    have h2 := hthis.2
    rw [hflag3, hb3] at h2
    simp at h2

/-- Witness for C5 amended: a concrete billing row three days out fires the
3-day warning once and not on the following pass. -/
theorem billing3_fires_once_per_period_witness :
    Event.warning (rowBilling "b" (3 * msPerDay)).website_id .billing 3 ∈
      (checkAndTriggerEvents 0 14 true true
        [rowBilling "b" (3 * msPerDay)]).1 ∧
    Event.warning (rowBilling "b" (3 * msPerDay)).website_id .billing 3 ∉
      (checkAndTriggerEvents 0 14 true true
        (checkAndTriggerEvents 0 14 true true
          [rowBilling "b" (3 * msPerDay)]).2.1).1 := by
  have h := billing3_fires_once_per_period 0 14 true true
    (rowBilling "b" (3 * msPerDay)) (3 * msPerDay) rfl (by decide) rfl
  exact ⟨h.1, h.2.2⟩

/-- Counterexample to C6: with two billing-tracked plans, a store failure
while persisting the first plan's flags (its 5-day billing flag has no
column) rejects the whole pass: the second plan's due 3-day billing warning
is never dispatched. -/
theorem store_error_silences_later_plan :
    (checkAndTriggerEvents 0 14 true true
        [rowBilling "a" (5 * msPerDay), rowBilling "b" (3 * msPerDay)]).2.2
      = some "Failed to update notification flags." ∧
    Event.warning "b" .billing 3 ∉
      (checkAndTriggerEvents 0 14 true true
        [rowBilling "a" (5 * msPerDay), rowBilling "b" (3 * msPerDay)]).1 := by
  decide

/-- C6 amended: per-plan processing is not failure-isolated.  The loop body
has no try/catch, so when the flag write-back for the first plan throws,
the pass ends with that error: only the first plan's calls were attempted,
the store is unchanged, and the remaining plans are skipped.  (Failures of
the outbound dispatches themselves are swallowed inside the notifier and do
not abort the pass.) -/
theorem store_error_aborts_pass (nowRaw dur : Int) (w a : Bool)
    (r : DBRow) (rest : List DBRow)
    (hflags : hasAnyFlag (processPlan (truncateToDay nowRaw) dur w a
      (rowToState r)).2 = true)
    (hvalid : flagColumnsExist (processPlan (truncateToDay nowRaw) dur w a
      (rowToState r)).2 = false) :
    checkAndTriggerEvents nowRaw dur w a (r :: rest) =
      ((processPlan (truncateToDay nowRaw) dur w a (rowToState r)).1,
        r :: rest, some "Failed to update notification flags.") := by
  unfold checkAndTriggerEvents runPassAux
  simp [hflags, updatePlanStateNotificationFlags, hvalid]

/-- Witness for C6 amended at a concrete two-plan store. -/
theorem store_error_aborts_pass_witness :
    checkAndTriggerEvents 0 14 true true
        [rowBilling "a" (5 * msPerDay), rowBilling "b" (3 * msPerDay)] =
      ((processPlan (truncateToDay 0) 14 true true
          (rowToState (rowBilling "a" (5 * msPerDay)))).1,
        [rowBilling "a" (5 * msPerDay), rowBilling "b" (3 * msPerDay)],
        some "Failed to update notification flags.") :=
  store_error_aborts_pass 0 14 true true (rowBilling "a" (5 * msPerDay))
    [rowBilling "b" (3 * msPerDay)] (by decide) (by decide)

end PlanController
